import Mathlib

/-!
Verification of the zepp2hass webhook ingestion and field-extraction pipeline.

This file is a shallow embedding, in Lean 4, of the core logic of the
zepp2hass Home Assistant integration:

* the Python/JSON value domain (`PyVal`),
* the dot-path extractor `get_nested_value` from
  custom_components/zepp2hass/sensors/formatters.py,
* the named formatter functions and the registry `FORMATTER_MAP` from the
  same module, together with `format_sensor_value`,
* the webhook POST handler `post` from custom_components/zepp2hass/__init__.py
  (payload validation, latest-payload store, bounded error log),
* the coordinator state from custom_components/zepp2hass/coordinator.py
  (`sorted_workout_history` caching, `last_workout`, cache invalidation in
  `async_set_updated_data`).

Machine floats are modelled as rationals; Python exceptions are modelled with
the `Except` monad; Python dicts are modelled as insertion-ordered association
lists (Python dicts preserve insertion order and JSON objects parse to dicts
with unique keys).
-/

/-- The domain of Python values that flow through the pipeline: JSON scalars
and containers plus the datetime objects produced by the sleep-time formatter.
Python floats are modelled as rationals. The constructor argument of
`PyVal.datetime` is the minute offset added to the (wall-clock dependent,
here abstracted) previous-day midnight by the sleep-time formatter. -/
inductive PyVal where
  | null : PyVal
  | bool : Bool → PyVal
  | int : Int → PyVal
  | float : ℚ → PyVal
  | str : String → PyVal
  | list : List PyVal → PyVal
  | dict : List (String × PyVal) → PyVal
  | datetime : Int → PyVal

/-- Python identity test against the singleton object None. -/
def isNull : PyVal → Bool
  | .null => true
  | _ => false

/-- Python truthiness of a value, as used in conditions such as
the source line reading if not self.data, or if year and month and day. -/
def pyTruthy : PyVal → Bool
  | .null => false
  | .bool b => b
  | .int n => !(n == 0)
  | .float q => !(q == 0)
  | .str s => !s.isEmpty
  | .list l => !l.isEmpty
  | .dict items => !items.isEmpty
  | .datetime _ => true

/-- Python isinstance(value, int). Python booleans are instances of int
(True counts as 1 and False as 0 in arithmetic and dict lookups). -/
def pyIntVal : PyVal → Option Int
  | .bool b => some (if b then 1 else 0)
  | .int n => some n
  | _ => none

/-- Python isinstance(value, (int, float)), yielding the numeric value. -/
def pyNumVal : PyVal → Option ℚ
  | .bool b => some (if b then 1 else 0)
  | .int n => some (n : ℚ)
  | .float q => some q
  | _ => none

/-- Python str(value) as used by f-string interpolation. Faithful for None,
booleans, integers and strings, which are the only cases the embedded code
ever interpolates on reachable paths; the text of the remaining cases is a
placeholder no theorem depends on. -/
def pyStrG : PyVal → String
  | .null => "None"
  | .bool b => if b then "True" else "False"
  | .int n => toString n
  | .float _ => "<float>"
  | .str s => s
  | .list _ => "<list>"
  | .dict _ => "<dict>"
  | .datetime _ => "<datetime>"

/-- Python dict.get(key, default) over an insertion-ordered association list. -/
def pyGetD (items : List (String × PyVal)) (key : String) (dflt : PyVal) : PyVal :=
  (items.lookup key).getD dflt

/-- Splitting helper for `_split_path`: accumulates the current segment. -/
def splitDotAux (cs : List Char) (cur : List Char) : List (List Char) :=
  match cs with
  | [] => [cur.reverse]
  | c :: rest => if c = '.' then cur.reverse :: splitDotAux rest [] else splitDotAux rest (c :: cur)

/-- Embeds `_split_path` (formatters.py): Python path.split? with separator
dot, so the empty path yields a single empty segment, and consecutive dots
yield empty segments, exactly as str.split with an explicit separator. -/
def _split_path (path : String) : List String :=
  (splitDotAux path.toList []).map (fun cs => String.mk cs)

/-- The traversal loop of `get_nested_value`: walk one key at a time; stop
with (None, False) as soon as the current value is not a dict containing the
next key. -/
def walk : PyVal → List String → PyVal × Bool
  | v, [] => (v, true)
  | v, key :: ks =>
    match v with
    | .dict items =>
      match items.lookup key with
      | some v2 => walk v2 ks
      | none => (PyVal.null, false)
    | _ => (PyVal.null, false)

/-- Embeds `get_nested_value` (formatters.py lines 50-67). -/
def get_nested_value (data : PyVal) (path : String) : PyVal × Bool :=
  walk data (_split_path path)

/-- Specification-side characterisation of successful traversal: the path
resolves through nested dicts to a final value (possibly null). -/
inductive Resolves : PyVal → List String → PyVal → Prop
  | nil (v : PyVal) : Resolves v [] v
  | cons {items : List (String × PyVal)} {key : String} {v2 w : PyVal} {ks : List String} :
      items.lookup key = some v2 → Resolves v2 ks w → Resolves (PyVal.dict items) (key :: ks) w

/-- Floor of a rational, via flooring integer division (kernel-reducible). -/
def qfloor (q : ℚ) : Int := q.num.fdiv q.den

/-- Round a rational to the nearest integer, ties to even: the rounding mode
of Python round(). -/
def roundHalfEvenInt (q : ℚ) : Int :=
  let f := qfloor q
  let r := q - (f : ℚ)
  if r < 1/2 then f
  else if 1/2 < r then f + 1
  else if f % 2 = 0 then f else f + 1

/-- Python round(value, 2) on the rational model of floats. -/
def pyRound2 (q : ℚ) : ℚ := (roundHalfEvenInt (q * 100) : ℚ) / 100

/-- Python int(value) on a float: truncation toward zero. -/
def pyTruncQ (q : ℚ) : Int := if q < 0 then -(qfloor (-q)) else qfloor q

/-- Gender lookup table. The module sensors/mappings.py it is imported from
is absent from the provided sources; the table below mirrors the identical
GENDER_MAP kept in sensor.py of the same repository. -/
def GENDER_MAP : List (Int × String) := [
  (0, "Male"),
  (1, "Female"),
  (2, "Other")]

/-- Sport type lookup table. The module sensors/mappings.py it is imported
from is absent from the provided sources; the table below mirrors the
identical SPORT_TYPE_MAP kept in sensor.py of the same repository. -/
def SPORT_TYPE_MAP : List (Int × String) := [
  (1, "Outdoor Running"),
  (2, "Treadmill (original indoor running)"),
  (3, "Walking"),
  (4, "Outdoor Cycling"),
  (5, "Free Training"),
  (6, "Pool Swimming"),
  (7, "Open Water Swimming"),
  (8, "Indoor Riding"),
  (9, "Elliptical Machine"),
  (10, "Mountaineering"),
  (11, "Cross Country Running"),
  (12, "Skiing"),
  (15, "Outdoor Hiking"),
  (17, "Tennis"),
  (18, "Football"),
  (19, "Ironman Triathlon"),
  (20, "Compound Motion"),
  (21, "Jump Rope"),
  (23, "Rowing Machine"),
  (24, "Indoor Fitness"),
  (40, "Indoor Walking"),
  (41, "Curling"),
  (42, "Snowboarding"),
  (43, "Alpine Skiing"),
  (44, "Outdoor Skating"),
  (45, "Indoor Skating"),
  (46, "Cross-Country Skiing"),
  (47, "Mountain Cycling"),
  (48, "BMX"),
  (49, "High Intensity Interval Training"),
  (50, "Core Training"),
  (51, "Mixed Aerobic"),
  (52, "Strength Training"),
  (53, "Stretching"),
  (54, "Climber"),
  (55, "Flexibility Training"),
  (57, "Step Training"),
  (58, "Stepper"),
  (59, "Gymnastics"),
  (60, "Yoga"),
  (61, "Pilates"),
  (62, "Surfing"),
  (63, "Hunting"),
  (64, "Fishing"),
  (65, "Sailing"),
  (66, "Outdoor Boating"),
  (67, "Skateboard"),
  (68, "Paddleboarding"),
  (69, "Roller Skating"),
  (70, "Rock Climbing"),
  (71, "Ballet"),
  (72, "Belly Dance"),
  (73, "Square Dance"),
  (74, "Street Dance"),
  (75, "Ballroom Dance"),
  (76, "Dance"),
  (77, "Zumba"),
  (78, "Cricket"),
  (79, "Baseball"),
  (80, "Bowling"),
  (81, "Squash"),
  (82, "Rugby"),
  (83, "Golf"),
  (84, "Golf swing"),
  (85, "Basketball"),
  (86, "Softball"),
  (87, "Gateball"),
  (88, "Volleyball"),
  (89, "Ping Pong"),
  (90, "Hockey"),
  (91, "Handball"),
  (92, "Badminton"),
  (93, "Archery"),
  (94, "Equestrian Sports"),
  (95, "Swordsmanship"),
  (96, "Karate"),
  (97, "Boxing"),
  (98, "Judo"),
  (99, "Wrestling"),
  (100, "Tai Chi"),
  (101, "Muay Thai"),
  (102, "Taekwondo"),
  (103, "Martial Arts"),
  (104, "Free Fighting"),
  (105, "Snowboarding"),
  (106, "Kitesurfing"),
  (108, "Climb the stairs"),
  (109, "Fitness"),
  (110, "Orienteering"),
  (111, "Group Exercise"),
  (112, "Latin Dance"),
  (113, "Jazz Dance"),
  (114, "Combat Exercise"),
  (115, "Hula hoop"),
  (116, "Frisbee"),
  (117, "Dart"),
  (118, "Flying a Kite"),
  (119, "Tug-of-war"),
  (120, "Kicking shuttlecock"),
  (121, "Beach Football"),
  (122, "Beach Volleyball"),
  (123, "Drifting"),
  (124, "Motorboat"),
  (125, "Bicycle"),
  (126, "Sled"),
  (127, "Orienteering"),
  (128, "Winter Biathlon"),
  (129, "Parkour"),
  (130, "Cross-training"),
  (131, "Race Walking"),
  (132, "Driving"),
  (133, "Paragliding"),
  (134, "One minute sit-ups"),
  (135, "One minute skipping rope"),
  (136, "Snowmobile"),
  (137, "Off-Road Motorcycle"),
  (138, "Dragon Boat"),
  (139, "Water Ski"),
  (140, "Kayaking"),
  (141, "Rowing"),
  (142, "Polo"),
  (143, "Spinning Bike"),
  (144, "Walking Machine"),
  (145, "Racquetball"),
  (146, "Folk Dance"),
  (147, "Jiu-Jitsu"),
  (148, "Fencing"),
  (149, "Horizontal Bar"),
  (150, "Parallel bars"),
  (151, "Billiards"),
  (152, "Sepak takraw"),
  (153, "Dodgeball"),
  (154, "Water Polo"),
  (155, "Fin swimming"),
  (156, "Synchronized Swimming"),
  (157, "Snorkeling"),
  (158, "Ice Hockey"),
  (159, "Swing"),
  (160, "Shuffleboard"),
  (161, "Table Football"),
  (162, "Shuttlecock"),
  (163, "Somatosensory Games"),
  (164, "Indoor Football"),
  (165, "Hip Hop Dance"),
  (166, "Pole Dance"),
  (167, "Battle Rope"),
  (168, "Break Dance"),
  (169, "Sandbag Ball"),
  (170, "Bocce"),
  (171, "Pull back the ball"),
  (172, "Indoor Surfing"),
  (173, "Chess"),
  (174, "Checkers"),
  (175, "Go"),
  (176, "Bridge"),
  (177, "Board Game"),
  (178, "Snowshoe Hiking"),
  (179, "Shooting"),
  (180, "Skydiving"),
  (181, "Downhill"),
  (182, "Bungee Jumping"),
  (183, "Trampoline"),
  (184, "Bouldering"),
  (185, "Modern Dance"),
  (186, "Disco"),
  (187, "Tap Dance"),
  (188, "Floor ball"),
  (189, "Electronic Sports"),
  (190, "ATV"),
  (191, "Football (without GPS)"),
  (192, "Playground Running"),
  (193, "Fishing (Number of Fishes)"),
  (194, "Indoor Rock Climbing"),
  (195, "Mountaineering and Skiing"),
  (196, "Outdoor Freediving"),
  (197, "Indoor freediving"),
  (198, "Fishing and Hunting"),
  (199, "Simple Tennis"),
  (200, "Wakewave Surfing"),
  (201, "Surfing (identify number of trips)"),
  (202, "Kitesurfing (Identification Gliding)"),
  (203, "Ultra Marathon")]

/-- Python string slicing s drop-first, over the character list. -/
def strDrop1 (s : String) : String := String.mk (s.toList.drop 1)

/-- Python int(s) restricted to plain digit strings: the embedded code only
re-parses tails of decimal integer representations, for which int() accepts
exactly nonempty all-digit strings; everything else raises ValueError,
modelled as none. -/
def pyParseInt (s : String) : Option Int :=
  let cs := s.toList
  if !cs.isEmpty && cs.all Char.isDigit then
    some (cs.foldl (fun acc c => acc * 10 + ((c.toNat : Int) - 48)) 0)
  else none

/-- Embeds format_gender (formatters.py lines 168-172): an int instance is
decoded through GENDER_MAP with an Unknown fallback interpolating str(value);
anything else passes through unchanged. -/
def format_gender (v : PyVal) : Except String PyVal :=
  match pyIntVal v with
  | some n =>
    .ok (match GENDER_MAP.lookup n with
      | some s => PyVal.str s
      | none => PyVal.str ("Unknown (" ++ pyStrG v ++ ")"))
  | none => .ok v

/-- The first isinstance block of format_sport_type: when str(value) has more
than one character, the category prefix (the first character) is removed and
the remainder re-parsed with int(); the parse fails for non-digit remainders,
for example str(True) stripped of its first character. -/
def sportDecode (v : PyVal) : Option Int :=
  let s := pyStrG v
  if s.length > 1 then pyParseInt (strDrop1 s) else pyIntVal v

/-- Embeds format_sport_type (formatters.py lines 175-188). -/
def format_sport_type (v : PyVal) : Except String PyVal :=
  match pyIntVal v with
  | none => .ok v
  | some _ =>
    match sportDecode v with
    | none => .error "ValueError: invalid literal for int() with base 10"
    | some m =>
      .ok (match SPORT_TYPE_MAP.lookup m with
        | some s => PyVal.str s
        | none => PyVal.str ("Unknown (" ++ toString m ++ ")"))

/-- Embeds format_bool (formatters.py lines 191-195): isinstance(value, bool)
is strict, so integers are not booleans and pass through. -/
def format_bool (v : PyVal) : Except String PyVal :=
  match v with
  | .bool b => .ok (PyVal.str (if b then "On" else "Off"))
  | _ => .ok v

/-- Embeds format_float (formatters.py lines 198-202): isinstance(value,
float) is strict, so integers pass through unrounded. -/
def format_float (v : PyVal) : Except String PyVal :=
  match v with
  | .float q => .ok (PyVal.float (pyRound2 q))
  | _ => .ok v

/-- Python format code 02d: zero-pad to width 2, the sign occupying width. -/
def pad2 (n : Int) : String :=
  if 0 ≤ n ∧ n < 10 then "0" ++ toString n else toString n

/-- Embeds format_birth_date (formatters.py lines 205-219): a dict whose
year, month and day entries are all truthy renders as DD/MM/YYYY; the format
code 02d raises (modelled as error) when day or month is not an int instance;
any other input passes through unchanged. -/
def format_birth_date (v : PyVal) : Except String PyVal :=
  match v with
  | .dict items =>
    let year := pyGetD items "year" PyVal.null
    let month := pyGetD items "month" PyVal.null
    let day := pyGetD items "day" PyVal.null
    if pyTruthy year && pyTruthy month && pyTruthy day then
      match pyIntVal day, pyIntVal month with
      | some d, some m =>
        .ok (PyVal.str (pad2 d ++ "/" ++ pad2 m ++ "/" ++ pyStrG year))
      | _, _ => .error "ValueError: unknown format code d"
    else .ok v
  | _ => .ok v

/-- Embeds format_body_temp (formatters.py lines 222-231): numeric values
above 100 are divided by 100 before rounding to 2 decimals; bool counts as a
numeric instance. -/
def format_body_temp (v : PyVal) : Except String PyVal :=
  match pyNumVal v with
  | some q =>
    if q > 100 then .ok (PyVal.float (pyRound2 (q / 100)))
    else .ok (PyVal.float (pyRound2 q))
  | none => .ok v

/-- Embeds format_sleep_time (formatters.py lines 234-243): a number is read
as minutes past the previous midnight and becomes a datetime (the wall-clock
midnight base of MidnightCache is abstracted into the constructor). -/
def format_sleep_time (v : PyVal) : Except String PyVal :=
  match pyNumVal v with
  | some q => .ok (PyVal.datetime (pyTruncQ q))
  | none => .ok v

/-- Embeds the formatter registry FORMATTER_MAP (formatters.py lines 268-276). -/
def FORMATTER_MAP : List (String × (PyVal → Except String PyVal)) := [
  ("format_gender", format_gender),
  ("format_sport_type", format_sport_type),
  ("format_bool", format_bool),
  ("format_body_temp", format_body_temp),
  ("format_float", format_float),
  ("format_birth_date", format_birth_date),
  ("format_sleep_time", format_sleep_time)]

/-- Embeds _SKIP_ROUND_FORMATTERS (formatters.py line 279). -/
def _SKIP_ROUND_FORMATTERS : List String := ["format_body_temp"]

/-- Python isinstance(value, float), strict. -/
def isFloatVal : PyVal → Bool
  | .float _ => true
  | _ => false

/-- Python round(value, 2) applied to a float value. -/
def roundFloatVal : PyVal → PyVal
  | .float q => PyVal.float (pyRound2 q)
  | v => v

/-- Embeds format_sensor_value (formatters.py lines 282-317): None maps to
None; a truthy formatter name found in the registry is applied; floats are
then rounded to 2 decimals unless rounding is disabled or the named formatter
does its own rounding. -/
def format_sensor_value (value : PyVal) (formatter_name : Option String)
    (round_floats : Bool) : Except String PyVal :=
  if isNull value then .ok PyVal.null
  else
    let applied : Except String PyVal :=
      match formatter_name with
      | none => .ok value
      | some nm =>
        if nm = "" then .ok value
        else
          match FORMATTER_MAP.lookup nm with
          | some f => f value
          | none => .ok value
    match applied with
    | .error e => .error e
    | .ok v1 =>
      let skip : Bool :=
        match formatter_name with
        | none => false
        | some nm => _SKIP_ROUND_FORMATTERS.contains nm
      .ok (if round_floats && isFloatVal v1 && !skip then roundFloatVal v1 else v1)

/-- Maximum number of error logs to keep (init module line 20; also const.py). -/
def MAX_ERROR_LOGS : Nat := 100

/-- Rate limiting configuration (const.py lines 11-12). These constants are
declared in the repository but never referenced by any handler code. -/
def RATE_LIMIT_REQUESTS : Nat := 30

/-- Rate limiting window (const.py line 12); see RATE_LIMIT_REQUESTS. -/
def RATE_LIMIT_WINDOW_SECONDS : Nat := 60

/-- One error-log entry as built by the POST handler (init module lines
808-812): the current ISO timestamp, the reported error value, and a preview
of the first five payload items. -/
structure ErrorEntry where
  timestamp : String
  error : PyVal
  payload_preview : List (String × PyVal)

/-- The per-entry webhook state kept in hass.data: the latest stored payload
and the error logs. -/
structure EntryData where
  latest : Option PyVal
  error_logs : List ErrorEntry

/-- Embeds the error-log push of the POST handler (init module lines
813-816): insert at index 0, then truncate to the newest MAX_ERROR_LOGS
entries when the bound is exceeded. -/
def appendErrorLog (logs : List ErrorEntry) (e : ErrorEntry) : List ErrorEntry :=
  let l := e :: logs
  if l.length > MAX_ERROR_LOGS then l.take MAX_ERROR_LOGS else l

/-- Body of the 400 response for unparseable JSON. -/
def invalidJsonBody (msg : String) : PyVal :=
  PyVal.dict [("error", PyVal.str "Invalid JSON"), ("message", PyVal.str msg)]

/-- Body of the 400 response for a parseable but non-object payload. -/
def invalidPayloadBody : PyVal :=
  PyVal.dict [("error", PyVal.str "Invalid payload"),
    ("message", PyVal.str "Payload must be a JSON object")]

/-- Body of the 200 acknowledgement. -/
def okBody : PyVal := PyVal.dict [("status", PyVal.str "ok")]

/-- Embeds the POST method of the webhook view (init module lines 781-831).
The request body is passed as the outcome of request.json() (error when the
body is unparseable), and the current time as the ISO string that the call
datetime.now().isoformat() would produce. The surrounding except branch (500
Processing error) is unreachable in the model because the store code is
total. Note the handler contains no rate limiting. -/
def post (body : Except String PyVal) (now : String) (st : EntryData) :
    (Nat × PyVal) × EntryData :=
  match body with
  | .error msg => ((400, invalidJsonBody msg), st)
  | .ok payload =>
    match payload with
    | .dict items =>
      let st1 : EntryData := ⟨some payload, st.error_logs⟩
      let last_error := pyGetD items "last_error" PyVal.null
      let st2 : EntryData :=
        if isNull last_error then st1
        else ⟨st1.latest, appendErrorLog st1.error_logs ⟨now, last_error, items.take 5⟩⟩
      ((200, okBody), st2)
    | _ => ((400, invalidPayloadBody), st)

/-- Runs a sequence of POST requests against the same endpoint state,
returning the list of responses and the final state. -/
def postSeq (now : String) :
    List (Except String PyVal) → EntryData → List (Nat × PyVal) × EntryData
  | [], st => ([], st)
  | b :: bs, st =>
    let r := post b now st
    let rs := postSeq now bs r.2
    (r.1 :: rs.1, rs.2)

/-- Stable insertion into a list sorted by descending key: the new element
goes in front of the first element whose key does not exceed its own, so
elements with equal keys keep their original relative order. -/
def insertDesc {α : Type} (k : α → Int) (x : α) : List α → List α
  | [] => [x]
  | y :: ys => if k y ≤ k x then x :: y :: ys else y :: insertDesc k x ys

/-- Stable sort by descending key. Models the source call of Python sorted
with a key and reverse=True: Python's sort is stable, a stable descending
sort is extensionally unique, and insertion sort computes it. -/
def sortDesc {α : Type} (k : α → Int) : List α → List α
  | [] => []
  | x :: xs => insertDesc k x (sortDesc k xs)

/-- Python max(l, key=k) scans left to right and replaces the current
maximum only on a strictly greater key, hence returns the first element
attaining the maximal key. -/
def pyMaxBy {α : Type} (k : α → Int) : α → List α → α
  | acc, [] => acc
  | acc, y :: ys => pyMaxBy k (if k acc < k y then y else acc) ys

/-- The sort/max key of the coordinator: x.get("startTime", 0) read as an
integer. Faithful for workout dicts whose startTime is an integer (or a
bool, which Python orders as 0 or 1) or absent; shapes on which Python's
sorted and max would raise TypeError are mapped to key 0 and are outside
every claim below. -/
def startTimeKey (w : PyVal) : Int :=
  match w with
  | .dict items =>
    match pyGetD items "startTime" (PyVal.int 0) with
    | .int n => n
    | .bool b => if b then 1 else 0
    | _ => 0
  | _ => 0

/-- The coordinator state relevant to the claims: self.data and the lazily
computed cache self._sorted_workout_history (coordinator.py line 73). -/
structure Coordinator where
  data : Option PyVal
  sortedCache : Option (List PyVal)

/-- Python truthiness of self.data (None or a dict). -/
def dataTruthy : Option PyVal → Bool
  | none => false
  | some v => pyTruthy v

/-- Embeds the history read in coordinator.py line 98 and line 122: get the
workout section with an empty-dict default, then its history with an
empty-list default. Non-dict workout sections, on which Python would raise
AttributeError, are mapped to an empty history and are outside every claim
below. -/
def workoutHistoryList (d : Option PyVal) : List PyVal :=
  match d with
  | some (.dict items) =>
    match pyGetD items "workout" (PyVal.dict []) with
    | .dict wi =>
      match pyGetD wi "history" (PyVal.list []) with
      | .list hs => hs
      | _ => []
    | _ => []
  | _ => []

/-- Embeds the property sorted_workout_history (coordinator.py lines 83-108):
return the cached list when present; with falsy data return an empty list
WITHOUT caching (exactly as the source); otherwise compute the history
sorted by startTime descending and cache it (caching the empty list when the
history is empty). Returns the value and the updated coordinator. -/
def sorted_workout_history (c : Coordinator) : List PyVal × Coordinator :=
  match c.sortedCache with
  | some l => (l, c)
  | none =>
    if dataTruthy c.data then
      match workoutHistoryList c.data with
      | [] => ([], ⟨c.data, some []⟩)
      | x :: xs =>
        let s := sortDesc startTimeKey (x :: xs)
        (s, ⟨c.data, some s⟩)
    else ([], c)

/-- The cache-free value of the derived view, computed from the data alone. -/
def pureSortedHistory (d : Option PyVal) : List PyVal :=
  if dataTruthy d then
    match workoutHistoryList d with
    | [] => []
    | x :: xs => sortDesc startTimeKey (x :: xs)
  else []

/-- Embeds the property last_workout (coordinator.py lines 110-126): a
single-pass maximum of the workout history by startTime. -/
def last_workout (c : Coordinator) : Option PyVal :=
  if dataTruthy c.data then
    match workoutHistoryList c.data with
    | [] => none
    | x :: xs => some (pyMaxBy startTimeKey x xs)
  else none

/-- Embeds async_set_updated_data (coordinator.py lines 128-142): invalidate
the cached sorted history, then store the new data (the parent class stores
the payload in self.data and notifies listeners). -/
def async_set_updated_data (p : PyVal) (_c : Coordinator) : Coordinator :=
  ⟨some p, none⟩

/-- Python isinstance(payload, dict). -/
def isDictVal : PyVal → Bool
  | .dict _ => true
  | _ => false

/-- Completeness of the walk: a resolving path reaches its value with the
found flag set. -/
theorem resolves_walk {v : PyVal} {ks : List String} {w : PyVal}
    (h : Resolves v ks w) : walk v ks = (w, true) := by
  induction h with
  | nil v => rfl
  | cons hl _ ih =>
    simp only [walk, hl]
    exact ih

/-- Soundness of the walk: a successful traversal resolves the path. -/
theorem walk_resolves (ks : List String) (v w : PyVal)
    (h : walk v ks = (w, true)) : Resolves v ks w := by
  induction ks generalizing v with
  | nil =>
    simp only [walk, Prod.mk.injEq] at h
    rcases h with ⟨rfl, -⟩
    exact Resolves.nil v
  | cons key ks ih =>
    cases v
    case dict items =>
      simp only [walk] at h
      cases hl : items.lookup key with
      | some v2 =>
        rw [hl] at h
        exact Resolves.cons hl (ih v2 h)
      | none =>
        rw [hl] at h
        simp at h
    all_goals simp [walk] at h

/-- The walk either succeeds or returns exactly (None, false). -/
theorem walk_false_null (ks : List String) (v : PyVal) :
    (walk v ks).2 = true ∨ walk v ks = (PyVal.null, false) := by
  induction ks generalizing v with
  | nil => left; rfl
  | cons key ks ih =>
    cases v
    case dict items =>
      cases hl : items.lookup key with
      | some v2 => simpa [walk, hl] using ih v2
      | none => right; simp [walk, hl]
    all_goals right; rfl

theorem qfloor_intCast (k : Int) : qfloor (k : ℚ) = k := by
  simp [qfloor, Rat.num_intCast, Rat.den_intCast, Int.fdiv_one]

theorem roundHalfEvenInt_intCast (k : Int) : roundHalfEvenInt (k : ℚ) = k := by
  simp only [roundHalfEvenInt, qfloor_intCast, sub_self]
  norm_num

/-- Rounding to 2 decimals is idempotent: the result is an integer multiple
of one hundredth, which rounds to itself. -/
theorem pyRound2_idem (q : ℚ) : pyRound2 (pyRound2 q) = pyRound2 q := by
  unfold pyRound2
  rw [div_mul_cancel₀ _ (by norm_num : (100 : ℚ) ≠ 0), roundHalfEvenInt_intCast]

theorem pyRound2_intCast (k : Int) : pyRound2 (k : ℚ) = (k : ℚ) := by
  unfold pyRound2
  rw [show (k : ℚ) * 100 = ((k * 100 : Int) : ℚ) by push_cast; ring, roundHalfEvenInt_intCast]
  push_cast
  field_simp

/-- format_gender either produces a string or passes its input through. -/
theorem format_gender_cases (x : PyVal) :
    (∃ s, format_gender x = .ok (PyVal.str s)) ∨ format_gender x = .ok x := by
  cases x
  case int n =>
    left
    simp only [format_gender, pyIntVal]
    cases GENDER_MAP.lookup n <;> exact ⟨_, rfl⟩
  case bool b =>
    left
    simp only [format_gender, pyIntVal]
    cases GENDER_MAP.lookup (if b then 1 else 0) <;> exact ⟨_, rfl⟩
  all_goals exact Or.inr rfl

theorem format_gender_idem (x y : PyVal) (h : format_gender x = Except.ok y) :
    format_gender y = Except.ok y := by
  rcases format_gender_cases x with ⟨s, hs⟩ | hid
  · rw [h] at hs
    injection hs with h2
    subst h2
    rfl
  · rw [h] at hid
    injection hid with h2
    subst h2
    exact h

/-- format_sport_type produces a string, passes its input through, or raises. -/
theorem format_sport_type_cases (x : PyVal) :
    (∃ s, format_sport_type x = .ok (PyVal.str s)) ∨ format_sport_type x = .ok x ∨
      ∃ e, format_sport_type x = .error e := by
  cases x
  case int n =>
    simp only [format_sport_type, pyIntVal]
    cases sportDecode (PyVal.int n) with
    | none => exact Or.inr (Or.inr ⟨_, rfl⟩)
    | some m =>
      refine Or.inl ?_
      dsimp only
      cases SPORT_TYPE_MAP.lookup m <;> exact ⟨_, rfl⟩
  case bool b =>
    simp only [format_sport_type, pyIntVal]
    cases sportDecode (PyVal.bool b) with
    | none => exact Or.inr (Or.inr ⟨_, rfl⟩)
    | some m =>
      refine Or.inl ?_
      dsimp only
      cases SPORT_TYPE_MAP.lookup m <;> exact ⟨_, rfl⟩
  all_goals exact Or.inr (Or.inl rfl)

theorem format_sport_type_idem (x y : PyVal) (h : format_sport_type x = Except.ok y) :
    format_sport_type y = Except.ok y := by
  rcases format_sport_type_cases x with ⟨s, hs⟩ | hid | ⟨e, he⟩
  · rw [h] at hs
    injection hs with h2
    subst h2
    rfl
  · rw [h] at hid
    injection hid with h2
    subst h2
    exact h
  · rw [h] at he
    exact Except.noConfusion he

theorem format_bool_cases (x : PyVal) :
    (∃ s, format_bool x = .ok (PyVal.str s)) ∨ format_bool x = .ok x := by
  cases x
  case bool b => exact Or.inl ⟨_, rfl⟩
  all_goals exact Or.inr rfl

theorem format_bool_idem (x y : PyVal) (h : format_bool x = Except.ok y) :
    format_bool y = Except.ok y := by
  rcases format_bool_cases x with ⟨s, hs⟩ | hid
  · rw [h] at hs
    injection hs with h2
    subst h2
    rfl
  · rw [h] at hid
    injection hid with h2
    subst h2
    exact h

theorem format_float_cases (x : PyVal) :
    (∃ q, format_float x = .ok (PyVal.float (pyRound2 q))) ∨ format_float x = .ok x := by
  cases x
  case float q => exact Or.inl ⟨q, rfl⟩
  all_goals exact Or.inr rfl

theorem format_float_idem (x y : PyVal) (h : format_float x = Except.ok y) :
    format_float y = Except.ok y := by
  rcases format_float_cases x with ⟨q, hq⟩ | hid
  · rw [h] at hq
    injection hq with h2
    subst h2
    simp only [format_float, pyRound2_idem]
  · rw [h] at hid
    injection hid with h2
    subst h2
    exact h

theorem format_birth_date_cases (x : PyVal) :
    (∃ s, format_birth_date x = .ok (PyVal.str s)) ∨ format_birth_date x = .ok x ∨
      ∃ e, format_birth_date x = .error e := by
  cases x
  case dict items =>
    simp only [format_birth_date]
    split
    · split
      · exact Or.inl ⟨_, rfl⟩
      · exact Or.inr (Or.inr ⟨_, rfl⟩)
    · exact Or.inr (Or.inl rfl)
  all_goals exact Or.inr (Or.inl rfl)

theorem format_birth_date_idem (x y : PyVal) (h : format_birth_date x = Except.ok y) :
    format_birth_date y = Except.ok y := by
  rcases format_birth_date_cases x with ⟨s, hs⟩ | hid | ⟨e, he⟩
  · rw [h] at hs
    injection hs with h2
    subst h2
    rfl
  · rw [h] at hid
    injection hid with h2
    subst h2
    exact h
  · rw [h] at he
    exact Except.noConfusion he

theorem format_sleep_time_cases (x : PyVal) :
    (∃ t, format_sleep_time x = .ok (PyVal.datetime t)) ∨ format_sleep_time x = .ok x := by
  cases x
  case bool b => exact Or.inl ⟨_, rfl⟩
  case int n => exact Or.inl ⟨_, rfl⟩
  case float q => exact Or.inl ⟨_, rfl⟩
  all_goals exact Or.inr rfl

theorem format_sleep_time_idem (x y : PyVal) (h : format_sleep_time x = Except.ok y) :
    format_sleep_time y = Except.ok y := by
  rcases format_sleep_time_cases x with ⟨t, ht⟩ | hid
  · rw [h] at ht
    injection ht with h2
    subst h2
    rfl
  · rw [h] at hid
    injection hid with h2
    subst h2
    exact h

/-- A single append never grows the error log beyond its capacity. -/
theorem appendErrorLog_length_le (logs : List ErrorEntry) (e : ErrorEntry)
    (_h : logs.length ≤ MAX_ERROR_LOGS) :
    (appendErrorLog logs e).length ≤ MAX_ERROR_LOGS := by
  simp only [appendErrorLog]
  split
  · simp [List.length_take]
  · next hgt => omega

theorem take_append_take {α : Type} (a b : List α) (M : ℕ) :
    (a ++ b.take M).take M = (a ++ b).take M := by
  rw [List.take_append_eq_append_take, List.take_append_eq_append_take, List.take_take,
    Nat.min_eq_left (Nat.sub_le M a.length)]

/-- Folding appends over the error log keeps exactly the newest
MAX_ERROR_LOGS entries, newest first. -/
theorem foldl_appendErrorLog (es : List ErrorEntry) (acc : List ErrorEntry)
    (hacc : acc.length ≤ MAX_ERROR_LOGS) :
    es.foldl appendErrorLog acc = (es.reverse ++ acc).take MAX_ERROR_LOGS := by
  induction es generalizing acc with
  | nil => simp [List.take_of_length_le hacc]
  | cons e es ih =>
    rw [List.foldl_cons, ih _ (appendErrorLog_length_le acc e hacc), List.reverse_cons,
      List.append_assoc, List.singleton_append]
    simp only [appendErrorLog]
    split
    · exact take_append_take _ _ _
    · rfl

theorem head?_take_succ {α : Type} (l : List α) (n : ℕ) :
    (l.take (n + 1)).head? = l.head? := by
  cases l <;> rfl

/-- The scan of pyMaxBy over a nonempty tail compares the accumulator with
the running maximum of the tail, preferring the accumulator on ties. -/
theorem pyMaxBy_cons {α : Type} (k : α → Int) (acc y : α) (ys : List α) :
    pyMaxBy k acc (y :: ys) =
      if k acc < k (pyMaxBy k y ys) then pyMaxBy k y ys else acc := by
  induction ys generalizing acc y with
  | nil => simp [pyMaxBy]
  | cons z zs ih =>
    have h1 : pyMaxBy k acc (y :: z :: zs) =
        pyMaxBy k (if k acc < k y then y else acc) (z :: zs) := rfl
    simp only [h1, ih]
    split_ifs <;> first | rfl | omega

theorem head?_insertDesc {α : Type} (k : α → Int) (x h : α) (t : List α) :
    (insertDesc k x (h :: t)).head? = some (if k h ≤ k x then x else h) := by
  simp only [insertDesc]
  split <;> rfl

theorem sortDesc_cons_ne_nil {α : Type} (k : α → Int) (x : α) (xs : List α) :
    sortDesc k (x :: xs) ≠ [] := by
  show insertDesc k x (sortDesc k xs) ≠ []
  cases sortDesc k xs with
  | nil => simp [insertDesc]
  | cons h t =>
    simp only [insertDesc]
    split <;> simp

/-- The head of the stable descending sort is the first element attaining
the maximal key, which is exactly what the single-pass maximum returns. -/
theorem head?_sortDesc {α : Type} (k : α → Int) (x : α) (xs : List α) :
    (sortDesc k (x :: xs)).head? = some (pyMaxBy k x xs) := by
  induction xs generalizing x with
  | nil => rfl
  | cons y ys ih =>
    obtain ⟨h, t, hs⟩ : ∃ h t, sortDesc k (y :: ys) = h :: t := by
      cases hs : sortDesc k (y :: ys) with
      | nil => exact absurd hs (sortDesc_cons_ne_nil k y ys)
      | cons h t => exact ⟨h, t, rfl⟩
    have hh : h = pyMaxBy k y ys := by
      have hy := ih y
      rw [hs] at hy
      simpa using hy
    rw [show sortDesc k (x :: y :: ys) = insertDesc k x (sortDesc k (y :: ys)) from rfl, hs,
      head?_insertDesc, pyMaxBy_cons, hh]
    split_ifs <;> first | rfl | omega

/-- With an empty cache, reading the sorted view computes it from the data. -/
theorem sorted_fresh (d : Option PyVal) :
    (sorted_workout_history ⟨d, none⟩).1 = pureSortedHistory d := by
  simp only [sorted_workout_history, pureSortedHistory]
  split
  · split <;> rfl
  · rfl

/-- With an empty cache, the single-pass maximum agrees with the head of the
sorted view. -/
theorem last_workout_head (d : Option PyVal) :
    last_workout ⟨d, none⟩ = (sorted_workout_history ⟨d, none⟩).1.head? := by
  simp only [last_workout, sorted_workout_history]
  split
  · cases hl : workoutHistoryList d with
    | nil => rfl
    | cons x xs => exact (head?_sortDesc startTimeKey x xs).symm
  · rfl

/-- C3: get_nested_value walks the dot-separated path one key at a time and
returns the reached value with the found flag set exactly when the path
resolves through nested dicts (even when the final value is null); in every
other case it returns (None, false); in particular, on the document with a
single null-valued key a, path a yields (None, true) while path b yields
(None, false). The embedded function is total, so it never raises. -/
theorem C3_get_nested_value_walks (d : PyVal) (path : String) (v : PyVal) :
    (get_nested_value d path = (v, true) ↔ Resolves d (_split_path path) v) ∧
    ((get_nested_value d path).2 = true ∨ get_nested_value d path = (PyVal.null, false)) ∧
    get_nested_value (PyVal.dict [("a", PyVal.null)]) "a" = (PyVal.null, true) ∧
    get_nested_value (PyVal.dict [("a", PyVal.null)]) "b" = (PyVal.null, false) :=
  ⟨⟨walk_resolves _ _ _, resolves_walk⟩, walk_false_null _ _, rfl, rfl⟩

/-- C2 counterexample: format_body_temp is shipped in the formatter registry
and is not idempotent: the integer input 20000 is accepted, one application
yields the float 200, and a second application yields the float 2, because
the divide-by-100 heuristic fires again on the first result. -/
theorem C2_format_body_temp_not_idempotent :
    FORMATTER_MAP.lookup "format_body_temp" = some format_body_temp ∧
    format_body_temp (PyVal.int 20000) = Except.ok (PyVal.float 200) ∧
    format_body_temp (PyVal.float 200) = Except.ok (PyVal.float 2) ∧
    (format_body_temp (PyVal.int 20000)).bind format_body_temp ≠
      format_body_temp (PyVal.int 20000) := by
  have h1 : format_body_temp (PyVal.int 20000) = Except.ok (PyVal.float 200) := by
    have h100 : ((20000 : Int) : ℚ) > 100 := by norm_num
    simp only [format_body_temp, pyNumVal, if_pos h100]
    have h2 : pyRound2 (((20000 : Int) : ℚ) / 100) = (200 : ℚ) := by
      rw [show ((20000 : Int) : ℚ) / 100 = ((200 : Int) : ℚ) by norm_num, pyRound2_intCast]
      norm_num
    rw [h2]
  have h2 : format_body_temp (PyVal.float 200) = Except.ok (PyVal.float 2) := by
    have h100 : (200 : ℚ) > 100 := by norm_num
    simp only [format_body_temp, pyNumVal, if_pos h100]
    have h3 : pyRound2 ((200 : ℚ) / 100) = (2 : ℚ) := by
      rw [show (200 : ℚ) / 100 = ((2 : Int) : ℚ) by norm_num, pyRound2_intCast]
      norm_num
    rw [h3]
  refine ⟨rfl, h1, h2, ?_⟩
  rw [h1]
  show format_body_temp (PyVal.float 200) ≠ Except.ok (PyVal.float 200)
  rw [h2]
  intro hcon
  injection hcon with hcon2
  injection hcon2 with hcon3
  norm_num at hcon3

/-- C2 amended: every formatter shipped in the registry except
format_body_temp is idempotent: whenever it accepts an input (returns
normally rather than raising), applying it again to the result returns that
result unchanged. -/
theorem C2_formatters_idempotent_except_body_temp (nm : String)
    (F : PyVal → Except String PyVal) (hmem : (nm, F) ∈ FORMATTER_MAP)
    (hne : nm ≠ "format_body_temp") (x y : PyVal) (h : F x = Except.ok y) :
    F y = Except.ok y := by
  simp only [FORMATTER_MAP, List.mem_cons, List.not_mem_nil, or_false,
    Prod.mk.injEq] at hmem
  rcases hmem with ⟨rfl, rfl⟩ | ⟨rfl, rfl⟩ | ⟨rfl, rfl⟩ | ⟨rfl, rfl⟩ | ⟨rfl, rfl⟩ |
    ⟨rfl, rfl⟩ | ⟨rfl, rfl⟩
  · exact format_gender_idem x y h
  · exact format_sport_type_idem x y h
  · exact format_bool_idem x y h
  · exact absurd rfl hne
  · exact format_float_idem x y h
  · exact format_birth_date_idem x y h
  · exact format_sleep_time_idem x y h

/-- Witness for the amended C2 theorem: format_bool from the registry maps
True to the string On, and a second application fixes that result. -/
theorem C2_formatters_idempotent_witness :
    format_bool (PyVal.str "On") = Except.ok (PyVal.str "On") :=
  C2_formatters_idempotent_except_body_temp "format_bool" format_bool
    (by simp [FORMATTER_MAP]) (by decide) (PyVal.bool true) (PyVal.str "On") rfl

/-- C4 counterexample: the boolean True is an int instance in Python, yet
format_sport_type neither decodes it nor passes it through: stripping the
first character of its string form and re-parsing raises ValueError. -/
theorem C4_format_sport_type_bool_raises :
    format_sport_type (PyVal.bool true) =
      Except.error "ValueError: invalid literal for int() with base 10" := rfl

/-- C4 amended: for every proper (non-boolean) integer code, format_gender
returns the Unknown fallback naming the code when the code is absent from
GENDER_MAP, format_sport_type returns the Unknown fallback naming the
decoded code when that is absent from SPORT_TYPE_MAP, and neither raises;
inputs that are not int instances pass through both unchanged; boolean
inputs (int instances in Python) make format_sport_type raise, as the
counterexample shows. -/
theorem C4_unknown_enum_fallback (n m : Int) (v : PyVal)
    (hg : GENDER_MAP.lookup n = none)
    (hdec : sportDecode (PyVal.int n) = some m)
    (hs : SPORT_TYPE_MAP.lookup m = none)
    (hv : pyIntVal v = none) :
    format_gender (PyVal.int n) =
      Except.ok (PyVal.str ("Unknown (" ++ toString n ++ ")")) ∧
    format_sport_type (PyVal.int n) =
      Except.ok (PyVal.str ("Unknown (" ++ toString m ++ ")")) ∧
    format_gender v = Except.ok v ∧ format_sport_type v = Except.ok v := by
  refine ⟨?_, ?_, ?_, ?_⟩
  · simp [format_gender, pyIntVal, hg, pyStrG]
  · simp [format_sport_type, pyIntVal, hdec, hs]
  · simp [format_gender, hv]
  · simp [format_sport_type, hv]

/-- Witness for the amended C4 theorem at gender code 90, sport code 90
(decoding to 0 by prefix stripping), and a string input. -/
theorem C4_unknown_enum_fallback_witness :
    format_gender (PyVal.int 90) =
      Except.ok (PyVal.str ("Unknown (" ++ toString (90 : Int) ++ ")")) ∧
    format_sport_type (PyVal.int 90) =
      Except.ok (PyVal.str ("Unknown (" ++ toString (0 : Int) ++ ")")) ∧
    format_gender (PyVal.str "walking") = Except.ok (PyVal.str "walking") ∧
    format_sport_type (PyVal.str "walking") = Except.ok (PyVal.str "walking") :=
  C4_unknown_enum_fallback 90 0 (PyVal.str "walking") rfl rfl rfl rfl

/-- C1 (code behaviour at the claimed failing input): the webhook POST
handler contains no rate limiting at all - the configured constants (30
requests per 60 seconds) are never consulted - so a run of 31 valid POSTs
within one window is answered with status 200 every time; in particular the
31st is not rejected with 429. -/
theorem C1_thirtyone_posts_all_return_200 :
    RATE_LIMIT_REQUESTS = 30 ∧ RATE_LIMIT_WINDOW_SECONDS = 60 ∧
    (postSeq "t" (List.replicate 31 (Except.ok (PyVal.dict []))) ⟨none, []⟩).1.map Prod.fst =
      List.replicate 31 200 :=
  ⟨rfl, rfl, by decide⟩

/-- C5: the error log is a bounded newest-first buffer of capacity
MAX_ERROR_LOGS = 100: appending capacity-plus-one entries to the empty log
leaves exactly capacity entries - the newest hundred in newest-first order,
so the newest entry is first and the oldest (first-appended) entry is the
one evicted - and each single append preserves the capacity bound. -/
theorem C5_error_log_ring_buffer (es logs : List ErrorEntry) (e : ErrorEntry)
    (hes : es.length = MAX_ERROR_LOGS + 1) (hlogs : logs.length ≤ MAX_ERROR_LOGS) :
    (es.foldl appendErrorLog []).length = MAX_ERROR_LOGS ∧
    es.foldl appendErrorLog [] = es.reverse.take MAX_ERROR_LOGS ∧
    (es.foldl appendErrorLog []).head? = es.getLast? ∧
    (appendErrorLog logs e).length ≤ MAX_ERROR_LOGS := by
  have hfold : es.foldl appendErrorLog [] = es.reverse.take MAX_ERROR_LOGS := by
    simpa using foldl_appendErrorLog es [] (by simp)
  refine ⟨?_, hfold, ?_, appendErrorLog_length_le logs e hlogs⟩
  · rw [hfold, List.length_take, List.length_reverse, hes]
    omega
  · rw [hfold, show MAX_ERROR_LOGS = 99 + 1 from rfl, head?_take_succ, List.head?_reverse]

/-- Witness for C5 at a concrete run of 101 identical entries. -/
theorem C5_error_log_ring_buffer_witness :
    ((List.replicate 101 (⟨"t", PyVal.str "e", []⟩ : ErrorEntry)).foldl
        appendErrorLog []).length = MAX_ERROR_LOGS ∧
    (List.replicate 101 (⟨"t", PyVal.str "e", []⟩ : ErrorEntry)).foldl appendErrorLog [] =
      (List.replicate 101 (⟨"t", PyVal.str "e", []⟩ : ErrorEntry)).reverse.take MAX_ERROR_LOGS ∧
    ((List.replicate 101 (⟨"t", PyVal.str "e", []⟩ : ErrorEntry)).foldl
        appendErrorLog []).head? =
      (List.replicate 101 (⟨"t", PyVal.str "e", []⟩ : ErrorEntry)).getLast? ∧
    (appendErrorLog [] ⟨"t", PyVal.str "e", []⟩).length ≤ MAX_ERROR_LOGS :=
  C5_error_log_ring_buffer (List.replicate 101 ⟨"t", PyVal.str "e", []⟩) []
    ⟨"t", PyVal.str "e", []⟩ (by simp [MAX_ERROR_LOGS]) (by simp)

/-- C6: a POST whose body parses to a non-object top-level value is rejected
with status 400 and the Invalid payload error body, and the endpoint state
(latest payload and error log) is returned unchanged. -/
theorem C6_non_object_payload_rejected (p : PyVal) (now : String) (st : EntryData)
    (h : isDictVal p = false) :
    post (Except.ok p) now st = ((400, invalidPayloadBody), st) := by
  cases p
  case dict items => simp [isDictVal] at h
  all_goals rfl

/-- Witness for C6 at the JSON array of 1, 2, 3 against the fresh state. -/
theorem C6_non_object_payload_rejected_witness :
    post (Except.ok (PyVal.list [PyVal.int 1, PyVal.int 2, PyVal.int 3])) "t"
        ⟨none, []⟩ =
      ((400, invalidPayloadBody), (⟨none, []⟩ : EntryData)) :=
  C6_non_object_payload_rejected (PyVal.list [PyVal.int 1, PyVal.int 2, PyVal.int 3])
    "t" ⟨none, []⟩ rfl

/-- C7: a POST of a JSON object is acknowledged with 200 and the ok status
body; the resulting error log is unchanged when the payload's last_error is
absent or null, and otherwise gains a new first entry; the first entry of an
append always carries exactly the appended error value. -/
theorem C7_last_error_logged (items : List (String × PyVal)) (now : String)
    (st : EntryData) (v : PyVal) (hv : pyGetD items "last_error" PyVal.null = v) :
    (post (Except.ok (PyVal.dict items)) now st).1 = (200, okBody) ∧
    (post (Except.ok (PyVal.dict items)) now st).2.error_logs =
      (if isNull v then st.error_logs
       else appendErrorLog st.error_logs ⟨now, v, items.take 5⟩) ∧
    (appendErrorLog st.error_logs ⟨now, v, items.take 5⟩).head?.map ErrorEntry.error =
      some v := by
  subst hv
  refine ⟨rfl, ?_, ?_⟩
  · simp only [post]
    split <;> rfl
  · simp only [appendErrorLog]
    split
    · rw [show MAX_ERROR_LOGS = 99 + 1 from rfl, head?_take_succ]
      rfl
    · rfl

/-- Witness for C7 at the payload reporting the error sensor timeout. -/
theorem C7_last_error_logged_witness :
    (post (Except.ok (PyVal.dict [("last_error", PyVal.str "sensor timeout")])) "t"
        ⟨none, []⟩).1 = (200, okBody) ∧
    (post (Except.ok (PyVal.dict [("last_error", PyVal.str "sensor timeout")])) "t"
        ⟨none, []⟩).2.error_logs =
      (if isNull (PyVal.str "sensor timeout") then ([] : List ErrorEntry)
       else appendErrorLog []
         ⟨"t", PyVal.str "sensor timeout",
           [("last_error", PyVal.str "sensor timeout")].take 5⟩) ∧
    (appendErrorLog []
        ⟨"t", PyVal.str "sensor timeout",
          [("last_error", PyVal.str "sensor timeout")].take 5⟩).head?.map
        ErrorEntry.error =
      some (PyVal.str "sensor timeout") :=
  C7_last_error_logged [("last_error", PyVal.str "sensor timeout")] "t" ⟨none, []⟩
    (PyVal.str "sensor timeout") rfl

/-- C8: storing a new payload invalidates the derived-view cache
synchronously: after storing payload2 (following a store of payload1 and a
read that cached payload1's sorted history), the cache is empty and the next
read of sorted_workout_history returns exactly the view computed from
payload2, never a stale value from payload1. -/
theorem C8_cache_invalidation (c : Coordinator) (p1 p2 : PyVal) :
    (async_set_updated_data p2
        ((sorted_workout_history (async_set_updated_data p1 c)).2)).sortedCache = none ∧
    (sorted_workout_history (async_set_updated_data p2
        ((sorted_workout_history (async_set_updated_data p1 c)).2))).1 =
      pureSortedHistory (some p2) :=
  ⟨rfl, sorted_fresh (some p2)⟩

/-- C10: with a freshly invalidated cache, the single-pass maximum
last_workout equals the head of the stable descending sort
sorted_workout_history - including when several workouts share the maximal
startTime, where both return the first such workout in history order - and
both are empty for an empty or falsy history. -/
theorem C10_last_workout_eq_sorted_head (c : Coordinator) (hc : c.sortedCache = none) :
    last_workout c = (sorted_workout_history c).1.head? := by
  obtain ⟨d, cache⟩ := c
  cases cache with
  | none => exact last_workout_head d
  | some l => exact absurd hc (by simp)

/-- Witness for C10 on a history of three workouts, two of which share the
maximal startTime: both sides pick the earlier of the two. -/
theorem C10_last_workout_eq_sorted_head_witness :
    last_workout ⟨some (PyVal.dict [("workout", PyVal.dict [("history", PyVal.list [
        PyVal.dict [("startTime", PyVal.int 5), ("name", PyVal.str "w0")],
        PyVal.dict [("startTime", PyVal.int 9), ("name", PyVal.str "a")],
        PyVal.dict [("startTime", PyVal.int 9), ("name", PyVal.str "b")]])])]), none⟩ =
      (sorted_workout_history ⟨some (PyVal.dict [("workout", PyVal.dict [("history",
        PyVal.list [
        PyVal.dict [("startTime", PyVal.int 5), ("name", PyVal.str "w0")],
        PyVal.dict [("startTime", PyVal.int 9), ("name", PyVal.str "a")],
        PyVal.dict [("startTime", PyVal.int 9), ("name", PyVal.str "b")]])])]),
        none⟩).1.head? :=
  C10_last_workout_eq_sorted_head _ rfl

/-- C9: a formatter name absent from the registry behaves exactly like the
absent formatter name (pass-through with only the default float rounding),
and a null input value is returned as null for every formatter name. -/
theorem C9_unknown_formatter_passthrough (nm nm2 : String) (v : PyVal) (rf : Bool)
    (h : FORMATTER_MAP.lookup nm = none) :
    format_sensor_value v (some nm) rf = format_sensor_value v none rf ∧
    format_sensor_value PyVal.null (some nm2) rf = Except.ok PyVal.null := by
  have hbt : nm ≠ "format_body_temp" := by
    intro he
    rw [he] at h
    simp [FORMATTER_MAP, List.lookup] at h
  have hskip : _SKIP_ROUND_FORMATTERS.contains nm = false := by
    simp [_SKIP_ROUND_FORMATTERS, hbt]
  constructor
  · simp only [format_sensor_value, h, hskip]
    by_cases hnm : nm = "" <;> simp [hnm]
  · simp [format_sensor_value, isNull]

/-- Witness for C9 at an unregistered formatter name and an integer value. -/
theorem C9_unknown_formatter_passthrough_witness :
    format_sensor_value (PyVal.int 7) (some "no_such_formatter") true =
      format_sensor_value (PyVal.int 7) none true ∧
    format_sensor_value PyVal.null (some "format_float") true =
      Except.ok PyVal.null :=
  C9_unknown_formatter_passthrough "no_such_formatter" "format_float" (PyVal.int 7)
    true rfl
